import Mathlib

/-!
Verification of the risk-scoring pipeline of `src/risk_scoring.py`
(`RiskScorer.calculate_basic_metrics` and `RiskScorer.compute_risk_score`).

The scoring arithmetic is embedded generically over a `LinearOrderedField`
so that claims about `compute_risk_score` can be evaluated on concrete
rational inputs, while the metric-extraction step, which takes a real
square root (`np.std`), is embedded over `ℝ`.
-/

namespace RiskScorer

/-- A decoded swap event; the pipeline reads only its `eth_amount` field
(`src/risk_scoring.py:34`). -/
structure SwapRecord where
  eth_amount : ℝ

/-- The metrics dictionary built by `calculate_basic_metrics`
(`src/risk_scoring.py:37-47`).  `swap_count` is a list length, hence `ℕ`. -/
structure Metrics (α : Type) where
  total_volume_eth : α
  avg_volume_eth : α
  volume_std_eth : α
  volume_cv : α
  swap_count : ℕ
  time_range_minutes : α
  volume_per_minute : α

/-- The `risk_weights` table of `RiskScorer.__init__`
(`src/risk_scoring.py:12-17`). -/
structure RiskWeights (α : Type) where
  volume_volatility : α
  liquidity_depth : α
  concentration_risk : α
  time_decay : α

variable {α : Type} [LinearOrderedField α]

/-- The concrete weight values set in `__init__`: 0.35, 0.30, 0.25, 0.10. -/
def risk_weights : RiskWeights α :=
  { volume_volatility := 35 / 100
    liquidity_depth := 30 / 100
    concentration_risk := 25 / 100
    time_decay := 10 / 100 }

/-- Embeds `np.mean`: sum divided by length. -/
noncomputable def npMean (l : List ℝ) : ℝ := l.sum / l.length

/-- Population variance: mean of squared deviations (what `np.std` squares). -/
noncomputable def npVariance (l : List ℝ) : ℝ :=
  (l.map (fun x => (x - npMean l) ^ 2)).sum / l.length

/-- Embeds `np.std`: population (biased) standard deviation. -/
noncomputable def npStd (l : List ℝ) : ℝ := Real.sqrt (npVariance l)

/-- Embeds `calculate_basic_metrics` (`src/risk_scoring.py:19-54`).  The input is
`none` when `swap_data` is falsy or lacks the `processed_events` key
(line 23); otherwise it carries the list of swap records.  Returns `none`
when fewer than 2 swaps are present (lines 29-31). -/
noncomputable def calculate_basic_metrics
    (swap_data : Option (List SwapRecord)) : Option (Metrics ℝ) :=
  match swap_data with
  | none => none
  | some swaps =>
    if swaps.length < 2 then none
    else
      let eth_amounts := swaps.map (fun s => s.eth_amount)
      let total := eth_amounts.sum
      some
        { total_volume_eth := total
          avg_volume_eth := npMean eth_amounts
          volume_std_eth := if eth_amounts.length > 1 then npStd eth_amounts else 0
          volume_cv :=
            if npMean eth_amounts > 0 then npStd eth_amounts / npMean eth_amounts else 0
          swap_count := swaps.length
          time_range_minutes := 5
          volume_per_minute := total / 5 }

/-- Line 68: `vol_norm = min(metrics['volume_cv'] * 10, 1.0)`. -/
def vol_norm (m : Metrics α) : α := min (m.volume_cv * 10) 1

/-- Line 74: `liquidity_norm = 1 - min(metrics['volume_per_minute'] / 100, 1.0)`. -/
def liquidity_norm (m : Metrics α) : α := 1 - min (m.volume_per_minute / 100) 1

/-- Line 79: `concentration_norm = 1 - min(metrics['swap_count'] / 10, 1.0)`. -/
def concentration_norm (m : Metrics α) : α := 1 - min ((m.swap_count : α) / 10) 1

/-- The weighted sum `risk_score` (`src/risk_scoring.py:83-86`); only three
of the four weights are applied. -/
def risk_score_sum (m : Metrics α) : α :=
  vol_norm m * (risk_weights : RiskWeights α).volume_volatility
    + liquidity_norm m * (risk_weights : RiskWeights α).liquidity_depth
    + concentration_norm m * (risk_weights : RiskWeights α).concentration_risk

/-- Line 89: `final_score = risk_score * 100`. -/
def final_score (m : Metrics α) : α := risk_score_sum m * 100

/-- The three risk categories (`src/risk_scoring.py:92-100`). -/
inductive RiskLevel where
  | LOW
  | MEDIUM
  | HIGH
deriving DecidableEq, Repr

/-- The categorization branches on the unrounded `final_score`
(`src/risk_scoring.py:92-100`). -/
def risk_level (score : α) : RiskLevel :=
  if score < 30 then .LOW
  else if score < 70 then .MEDIUM
  else .HIGH

/-- Python `round(x, 2)`: nearest value with 2 decimal places. -/
def round2 [FloorRing α] (x : α) : α := (round (x * 100) : ℤ) / 100

/-- Python `round(x, 3)`: nearest value with 3 decimal places. -/
def round3 [FloorRing α] (x : α) : α := (round (x * 1000) : ℤ) / 1000

/-- The success record built by `compute_risk_score`
(`src/risk_scoring.py:102-113`); the wall-clock timestamp is external I/O
and not part of the embedded data. -/
structure RiskResult (α : Type) where
  risk_score : α
  risk_level : RiskLevel
  color : String
  volatility_contrib : α
  liquidity_contrib : α
  concentration_contrib : α
  norm_volatility : α
  norm_liquidity : α
  norm_concentration : α
deriving DecidableEq, Repr

/-- Return type of `compute_risk_score`: either the structured error
dictionary or the result record. -/
inductive ScoreOutput (α : Type) where
  | error (msg : String)
  | ok (r : RiskResult α)
deriving DecidableEq, Repr

/-- Embeds `compute_risk_score` (`src/risk_scoring.py:56-120`).  `none` models a
falsy `metrics` argument (line 58). -/
def compute_risk_score [FloorRing α] (metrics : Option (Metrics α)) : ScoreOutput α :=
  match metrics with
  | none => .error "No metrics available"
  | some m =>
    let fs := final_score m
    .ok
      { risk_score := round2 fs
        risk_level := risk_level fs
        color := if fs < 30 then "🟢" else if fs < 70 then "🟡" else "🔴"
        volatility_contrib :=
          round2 (vol_norm m * (risk_weights : RiskWeights α).volume_volatility * 100)
        liquidity_contrib :=
          round2 (liquidity_norm m * (risk_weights : RiskWeights α).liquidity_depth * 100)
        concentration_contrib :=
          round2 (concentration_norm m * (risk_weights : RiskWeights α).concentration_risk * 100)
        norm_volatility := round3 (vol_norm m)
        norm_liquidity := round3 (liquidity_norm m)
        norm_concentration := round3 (concentration_norm m) }

/-! ## Shared helper lemmas -/

theorem vol_norm_nonneg (m : Metrics α) (h : 0 ≤ m.volume_cv) : 0 ≤ vol_norm m :=
  le_min (by positivity) zero_le_one

theorem vol_norm_le_one (m : Metrics α) : vol_norm m ≤ 1 :=
  min_le_right _ _

theorem liquidity_norm_nonneg (m : Metrics α) : 0 ≤ liquidity_norm m := by
  have h1 : min (m.volume_per_minute / 100) 1 ≤ 1 := min_le_right _ _
  unfold liquidity_norm; linarith

theorem liquidity_norm_le_one (m : Metrics α) (h : 0 ≤ m.volume_per_minute) :
    liquidity_norm m ≤ 1 := by
  have h1 : 0 ≤ min (m.volume_per_minute / 100) 1 := le_min (by positivity) zero_le_one
  unfold liquidity_norm; linarith

theorem concentration_norm_nonneg (m : Metrics α) : 0 ≤ concentration_norm m := by
  have h1 : min ((m.swap_count : α) / 10) 1 ≤ 1 := min_le_right _ _
  unfold concentration_norm; linarith

theorem concentration_norm_le_one (m : Metrics α) : concentration_norm m ≤ 1 := by
  have h1 : 0 ≤ min ((m.swap_count : α) / 10) 1 := le_min (by positivity) zero_le_one
  unfold concentration_norm; linarith

/-! ## Claim theorems -/

/-- C2: for every metrics value with non-negative `volume_cv`,
`volume_per_minute` and `swap_count`, the unrounded score is at most 90,
and some metrics value attains exactly 90. -/
theorem C2_max_score_90 (m : Metrics ℚ)
    (hcv : 0 ≤ m.volume_cv) (hvpm : 0 ≤ m.volume_per_minute) :
    final_score m ≤ 90 ∧
      ∃ m2 : Metrics ℚ, 0 ≤ m2.volume_cv ∧ 0 ≤ m2.volume_per_minute ∧
        final_score m2 = 90 := by
  constructor
  · have h1 := vol_norm_le_one m
    have h2 := liquidity_norm_le_one m hvpm
    have h3 := concentration_norm_le_one m
    unfold final_score risk_score_sum risk_weights
    dsimp only
    linarith
  · refine ⟨⟨0, 0, 0, 1, 0, 5, 0⟩, by norm_num, by norm_num, ?_⟩
    norm_num [final_score, risk_score_sum, vol_norm, liquidity_norm,
      concentration_norm, risk_weights, min_def]

/-- C2 witness: the bound and the attaining metrics value, instantiated at a
concrete metrics value. -/
theorem C2_max_score_90_witness :
    (0 : ℚ) ≤ (⟨0, 0, 0, 1, 0, 5, 0⟩ : Metrics ℚ).volume_cv ∧
    (0 : ℚ) ≤ (⟨0, 0, 0, 1, 0, 5, 0⟩ : Metrics ℚ).volume_per_minute ∧
    (final_score (⟨0, 0, 0, 1, 0, 5, 0⟩ : Metrics ℚ) ≤ 90 ∧
      ∃ m2 : Metrics ℚ, 0 ≤ m2.volume_cv ∧ 0 ≤ m2.volume_per_minute ∧
        final_score m2 = 90) :=
  ⟨by norm_num, by norm_num,
    C2_max_score_90 ⟨0, 0, 0, 1, 0, 5, 0⟩ (by norm_num) (by norm_num)⟩

/-- C3: `compute_risk_score` maps the unrounded score to exactly one
category: LOW iff score < 30, MEDIUM iff 30 ≤ score < 70, HIGH iff
score ≥ 70 — a partition with no gap or overlap. -/
theorem C3_category_partition (m : Metrics ℚ) :
    ∃ r : RiskResult ℚ, compute_risk_score (some m) = .ok r ∧
      (r.risk_level = .LOW ↔ final_score m < 30) ∧
      (r.risk_level = .MEDIUM ↔ 30 ≤ final_score m ∧ final_score m < 70) ∧
      (r.risk_level = .HIGH ↔ 70 ≤ final_score m) := by
  refine ⟨_, rfl, ?_, ?_, ?_⟩ <;>
    · show risk_level (final_score m) = _ ↔ _
      unfold risk_level
      by_cases h1 : final_score m < 30 <;> by_cases h2 : final_score m < 70 <;>
        simp [h1, h2] <;> linarith

/-- C3 witness: the category partition instantiated at a concrete metrics
value whose score is 55. -/
theorem C3_category_partition_witness :
    ∃ r : RiskResult ℚ,
      compute_risk_score (some (⟨0, 0, 0, 0, 0, 5, 0⟩ : Metrics ℚ)) = .ok r ∧
      (r.risk_level = .LOW ↔ final_score (⟨0, 0, 0, 0, 0, 5, 0⟩ : Metrics ℚ) < 30) ∧
      (r.risk_level = .MEDIUM ↔ 30 ≤ final_score (⟨0, 0, 0, 0, 0, 5, 0⟩ : Metrics ℚ) ∧
        final_score (⟨0, 0, 0, 0, 0, 5, 0⟩ : Metrics ℚ) < 70) ∧
      (r.risk_level = .HIGH ↔ 70 ≤ final_score (⟨0, 0, 0, 0, 0, 5, 0⟩ : Metrics ℚ)) :=
  C3_category_partition ⟨0, 0, 0, 0, 0, 5, 0⟩

/-- C6: `compute_risk_score` on an absent metrics value returns the
structured error `{"error": "No metrics available"}` as an ordinary value,
and every present metrics value produces a success record — the error is
the only failure path. -/
theorem C6_error_path :
    compute_risk_score (α := ℚ) none = .error "No metrics available" ∧
      ∀ m : Metrics ℚ, ∃ r : RiskResult ℚ, compute_risk_score (some m) = .ok r :=
  ⟨rfl, fun _ => ⟨_, rfl⟩⟩

/-- C4: for every metrics value with non-negative `volume_cv` and
`volume_per_minute` (and `swap_count`, non-negative by type), each of the
three normalized sub-scores lies in `[0, 1]` inclusive. -/
theorem C4_normalized_in_unit_interval (m : Metrics ℚ)
    (hcv : 0 ≤ m.volume_cv) (hvpm : 0 ≤ m.volume_per_minute) :
    (0 ≤ vol_norm m ∧ vol_norm m ≤ 1) ∧
      (0 ≤ liquidity_norm m ∧ liquidity_norm m ≤ 1) ∧
      (0 ≤ concentration_norm m ∧ concentration_norm m ≤ 1) :=
  ⟨⟨vol_norm_nonneg m hcv, vol_norm_le_one m⟩,
    ⟨liquidity_norm_nonneg m, liquidity_norm_le_one m hvpm⟩,
    ⟨concentration_norm_nonneg m, concentration_norm_le_one m⟩⟩

/-- C4 witness: the sub-score bounds hold at an extreme concrete metrics
value with a coefficient of variation of 1000. -/
theorem C4_normalized_in_unit_interval_witness :
    (0 : ℚ) ≤ (⟨0, 0, 0, 1000, 3, 5, 250⟩ : Metrics ℚ).volume_cv ∧
    (0 : ℚ) ≤ (⟨0, 0, 0, 1000, 3, 5, 250⟩ : Metrics ℚ).volume_per_minute ∧
    ((0 ≤ vol_norm (⟨0, 0, 0, 1000, 3, 5, 250⟩ : Metrics ℚ) ∧
        vol_norm (⟨0, 0, 0, 1000, 3, 5, 250⟩ : Metrics ℚ) ≤ 1) ∧
      (0 ≤ liquidity_norm (⟨0, 0, 0, 1000, 3, 5, 250⟩ : Metrics ℚ) ∧
        liquidity_norm (⟨0, 0, 0, 1000, 3, 5, 250⟩ : Metrics ℚ) ≤ 1) ∧
      (0 ≤ concentration_norm (⟨0, 0, 0, 1000, 3, 5, 250⟩ : Metrics ℚ) ∧
        concentration_norm (⟨0, 0, 0, 1000, 3, 5, 250⟩ : Metrics ℚ) ≤ 1)) :=
  ⟨by norm_num, by norm_num,
    C4_normalized_in_unit_interval ⟨0, 0, 0, 1000, 3, 5, 250⟩ (by norm_num) (by norm_num)⟩

/-- C1 counterexample: at the metrics value that saturates every
normalized factor at 1 the weights over all four declared risk factors sum
to 1.0, yet the returned score is 90 — not 100 × Σ(normalized_i × weight_i)
= 100 × 1 as the claim's weights-sum-to-1.0 reading requires; the scoring
sum only applies three weights, totalling 0.90. -/
theorem C1_counterexample :
    vol_norm (⟨0, 0, 0, 1, 0, 5, 0⟩ : Metrics ℚ) = 1 ∧
    liquidity_norm (⟨0, 0, 0, 1, 0, 5, 0⟩ : Metrics ℚ) = 1 ∧
    concentration_norm (⟨0, 0, 0, 1, 0, 5, 0⟩ : Metrics ℚ) = 1 ∧
    (risk_weights : RiskWeights ℚ).volume_volatility +
      (risk_weights : RiskWeights ℚ).liquidity_depth +
      (risk_weights : RiskWeights ℚ).concentration_risk +
      (risk_weights : RiskWeights ℚ).time_decay = 1 ∧
    (risk_weights : RiskWeights ℚ).volume_volatility +
      (risk_weights : RiskWeights ℚ).liquidity_depth +
      (risk_weights : RiskWeights ℚ).concentration_risk = 9 / 10 ∧
    final_score (⟨0, 0, 0, 1, 0, 5, 0⟩ : Metrics ℚ) = 90 ∧
    final_score (⟨0, 0, 0, 1, 0, 5, 0⟩ : Metrics ℚ) ≠ 100 * 1 := by
  norm_num [final_score, risk_score_sum, vol_norm, liquidity_norm,
    concentration_norm, risk_weights, min_def]

/-- C1 (amended): for every metrics value with non-negative `volume_cv`
and `volume_per_minute`, the unrounded score equals
100 × Σ(normalized_i × weight_i) over the three applied risk factors, the
weights used in the sum total 0.90, and each normalized_i lies in [0,1]. -/
theorem C1_weighted_sum (m : Metrics ℚ)
    (hcv : 0 ≤ m.volume_cv) (hvpm : 0 ≤ m.volume_per_minute) :
    final_score m = 100 *
      (vol_norm m * (risk_weights : RiskWeights ℚ).volume_volatility +
        liquidity_norm m * (risk_weights : RiskWeights ℚ).liquidity_depth +
        concentration_norm m * (risk_weights : RiskWeights ℚ).concentration_risk) ∧
    (risk_weights : RiskWeights ℚ).volume_volatility +
      (risk_weights : RiskWeights ℚ).liquidity_depth +
      (risk_weights : RiskWeights ℚ).concentration_risk = 9 / 10 ∧
    (0 ≤ vol_norm m ∧ vol_norm m ≤ 1) ∧
    (0 ≤ liquidity_norm m ∧ liquidity_norm m ≤ 1) ∧
    (0 ≤ concentration_norm m ∧ concentration_norm m ≤ 1) := by
  refine ⟨?_, by norm_num [risk_weights],
    ⟨vol_norm_nonneg m hcv, vol_norm_le_one m⟩,
    ⟨liquidity_norm_nonneg m, liquidity_norm_le_one m hvpm⟩,
    ⟨concentration_norm_nonneg m, concentration_norm_le_one m⟩⟩
  unfold final_score risk_score_sum
  ring

/-- C1 witness: the amended weighted-sum identity at a concrete metrics
value. -/
theorem C1_weighted_sum_witness :
    (0 : ℚ) ≤ (⟨1, 1, 0, 0, 2, 5, 3⟩ : Metrics ℚ).volume_cv ∧
    (0 : ℚ) ≤ (⟨1, 1, 0, 0, 2, 5, 3⟩ : Metrics ℚ).volume_per_minute ∧
    (final_score (⟨1, 1, 0, 0, 2, 5, 3⟩ : Metrics ℚ) = 100 *
      (vol_norm (⟨1, 1, 0, 0, 2, 5, 3⟩ : Metrics ℚ) *
          (risk_weights : RiskWeights ℚ).volume_volatility +
        liquidity_norm (⟨1, 1, 0, 0, 2, 5, 3⟩ : Metrics ℚ) *
          (risk_weights : RiskWeights ℚ).liquidity_depth +
        concentration_norm (⟨1, 1, 0, 0, 2, 5, 3⟩ : Metrics ℚ) *
          (risk_weights : RiskWeights ℚ).concentration_risk) ∧
    (risk_weights : RiskWeights ℚ).volume_volatility +
      (risk_weights : RiskWeights ℚ).liquidity_depth +
      (risk_weights : RiskWeights ℚ).concentration_risk = 9 / 10 ∧
    (0 ≤ vol_norm (⟨1, 1, 0, 0, 2, 5, 3⟩ : Metrics ℚ) ∧
      vol_norm (⟨1, 1, 0, 0, 2, 5, 3⟩ : Metrics ℚ) ≤ 1) ∧
    (0 ≤ liquidity_norm (⟨1, 1, 0, 0, 2, 5, 3⟩ : Metrics ℚ) ∧
      liquidity_norm (⟨1, 1, 0, 0, 2, 5, 3⟩ : Metrics ℚ) ≤ 1) ∧
    (0 ≤ concentration_norm (⟨1, 1, 0, 0, 2, 5, 3⟩ : Metrics ℚ) ∧
      concentration_norm (⟨1, 1, 0, 0, 2, 5, 3⟩ : Metrics ℚ) ≤ 1)) :=
  ⟨by norm_num, by norm_num,
    C1_weighted_sum ⟨1, 1, 0, 0, 2, 5, 3⟩ (by norm_num) (by norm_num)⟩

/-- C10: the reported `risk_score` field is the final score rounded to 2
decimal places while `risk_level` is determined from the unrounded score;
at a metrics value with unrounded score 29.996 the returned record pairs a
rounded `risk_score` of 30.0 with `risk_level` LOW. -/
theorem C10_rounding_mismatch :
    (∀ m : Metrics ℚ, ∃ r : RiskResult ℚ, compute_risk_score (some m) = .ok r ∧
        r.risk_score = round2 (final_score m) ∧
        r.risk_level = risk_level (final_score m)) ∧
    (∃ (m : Metrics ℚ) (r : RiskResult ℚ), compute_risk_score (some m) = .ok r ∧
        final_score m < 30 ∧ r.risk_score = 30 ∧ r.risk_level = .LOW) := by
  constructor
  · exact fun m => ⟨_, rfl, rfl, rfl⟩
  · have hfs : final_score (⟨0, 0, 0, 7499 / 87500, 10, 5, 100⟩ : Metrics ℚ) =
        7499 / 250 := by
      norm_num [final_score, risk_score_sum, vol_norm, liquidity_norm,
        concentration_norm, risk_weights, min_def]
    refine ⟨⟨0, 0, 0, 7499 / 87500, 10, 5, 100⟩, _, rfl, ?_, ?_, ?_⟩
    · rw [hfs]; norm_num
    · show round2 (final_score (⟨0, 0, 0, 7499 / 87500, 10, 5, 100⟩ : Metrics ℚ)) = 30
      rw [hfs]
      unfold round2
      rw [show ((7499 : ℚ) / 250) * 100 = 14998 / 5 by norm_num, round_eq,
        show ((14998 : ℚ) / 5 + 1 / 2) = 30001 / 10 by norm_num]
      have hfl : ⌊(30001 : ℚ) / 10⌋ = 3000 := by
        rw [Int.floor_eq_iff]; constructor <;> norm_num
      rw [hfl]
      norm_num
    · show risk_level (final_score (⟨0, 0, 0, 7499 / 87500, 10, 5, 100⟩ : Metrics ℚ)) =
        RiskLevel.LOW
      rw [hfs]
      unfold risk_level
      rw [if_pos (by norm_num)]

/-- C5: when the swap data is absent (falsy input or missing
`processed_events` key) or carries fewer than 2 swap records,
`calculate_basic_metrics` returns `none` — never a partially populated
metrics value. -/
theorem C5_insufficient_data (sd : Option (List SwapRecord))
    (h : ∀ l, sd = some l → l.length < 2) :
    calculate_basic_metrics sd = none := by
  cases sd with
  | none => rfl
  | some l =>
    show (if l.length < 2 then none else _) = none
    rw [if_pos (h l rfl)]

/-- C5 witness: a single swap record of 5 ETH yields no metrics. -/
theorem C5_insufficient_data_witness :
    (∀ l : List SwapRecord, some [(⟨5⟩ : SwapRecord)] = some l → l.length < 2) ∧
    calculate_basic_metrics (some [(⟨5⟩ : SwapRecord)]) = none := by
  have h : ∀ l : List SwapRecord, some [(⟨5⟩ : SwapRecord)] = some l → l.length < 2 := by
    intro l hl
    cases hl
    decide
  exact ⟨h, C5_insufficient_data _ h⟩

/-- C7: for any list of at least 2 swap records with non-negative amounts,
the returned metrics carry `total_volume_eth` = the sum of the amounts,
`avg_volume_eth` = total / count, and a non-negative `volume_std_eth` that
is the population standard deviation: its square times the count equals the
sum of squared deviations from the mean. -/
theorem C7_metrics_formulas (recs : List SwapRecord)
    (hlen : 2 ≤ recs.length) (hpos : ∀ r ∈ recs, 0 ≤ r.eth_amount) :
    ∃ m : Metrics ℝ, calculate_basic_metrics (some recs) = some m ∧
      m.total_volume_eth = (recs.map (fun s => s.eth_amount)).sum ∧
      m.avg_volume_eth = m.total_volume_eth / recs.length ∧
      0 ≤ m.volume_std_eth ∧
      m.volume_std_eth ^ 2 * recs.length =
        ((recs.map (fun s => s.eth_amount)).map
          (fun x => (x - m.avg_volume_eth) ^ 2)).sum := by
  have hnl : ¬ recs.length < 2 := by omega
  have hgt : (recs.map (fun s => s.eth_amount)).length > 1 := by
    rw [List.length_map]; omega
  refine ⟨⟨(recs.map (fun s => s.eth_amount)).sum,
      npMean (recs.map (fun s => s.eth_amount)),
      npStd (recs.map (fun s => s.eth_amount)),
      if npMean (recs.map (fun s => s.eth_amount)) > 0 then
        npStd (recs.map (fun s => s.eth_amount)) /
          npMean (recs.map (fun s => s.eth_amount)) else 0,
      recs.length, 5, (recs.map (fun s => s.eth_amount)).sum / 5⟩,
    ?_, rfl, ?_, Real.sqrt_nonneg _, ?_⟩
  · show (if recs.length < 2 then none else _) = _
    rw [if_neg hnl, if_pos hgt]
  · show npMean (recs.map (fun s => s.eth_amount)) = _ / (recs.length : ℝ)
    unfold npMean
    rw [List.length_map]
  · show npStd (recs.map (fun s => s.eth_amount)) ^ 2 * (recs.length : ℝ) = _
    have hvar : 0 ≤ npVariance (recs.map (fun s => s.eth_amount)) := by
      unfold npVariance
      apply div_nonneg
      · apply List.sum_nonneg
        intro x hx
        simp only [List.mem_map] at hx
        obtain ⟨y, _, rfl⟩ := hx
        positivity
      · positivity
    rw [npStd, Real.sq_sqrt hvar, npVariance, List.length_map]
    have hne : (recs.length : ℝ) ≠ 0 := by
      have : 0 < recs.length := by omega
      positivity
    rw [div_mul_cancel₀ _ hne]

/-- C7 witness: the metrics formulas at the concrete input `[5, 5]`. -/
theorem C7_metrics_formulas_witness :
    2 ≤ ([⟨5⟩, ⟨5⟩] : List SwapRecord).length ∧
    (∀ r ∈ ([⟨5⟩, ⟨5⟩] : List SwapRecord), 0 ≤ r.eth_amount) ∧
    (∃ m : Metrics ℝ,
      calculate_basic_metrics (some [⟨5⟩, ⟨5⟩]) = some m ∧
      m.total_volume_eth = (([⟨5⟩, ⟨5⟩] : List SwapRecord).map (fun s => s.eth_amount)).sum ∧
      m.avg_volume_eth = m.total_volume_eth / ([⟨5⟩, ⟨5⟩] : List SwapRecord).length ∧
      0 ≤ m.volume_std_eth ∧
      m.volume_std_eth ^ 2 * ([⟨5⟩, ⟨5⟩] : List SwapRecord).length =
        ((([⟨5⟩, ⟨5⟩] : List SwapRecord).map (fun s => s.eth_amount)).map
          (fun x => (x - m.avg_volume_eth) ^ 2)).sum) := by
  have hpos : ∀ r ∈ ([⟨5⟩, ⟨5⟩] : List SwapRecord), 0 ≤ r.eth_amount := by
    intro r hr
    simp only [List.mem_cons, List.not_mem_nil, or_false] at hr
    rcases hr with rfl | rfl <;> norm_num
  exact ⟨by decide, hpos, C7_metrics_formulas [⟨5⟩, ⟨5⟩] (by decide) hpos⟩

/-- C9: the coefficient of variation is guarded against division by zero —
every metrics value returned carries `volume_cv = volume_std_eth /
avg_volume_eth` when the mean is positive and `volume_cv = 0` otherwise. -/
theorem C9_cv_guard (sd : Option (List SwapRecord)) (m : Metrics ℝ)
    (h : calculate_basic_metrics sd = some m) :
    m.volume_cv =
      if m.avg_volume_eth > 0 then m.volume_std_eth / m.avg_volume_eth else 0 := by
  cases sd with
  | none => exact absurd h (by simp [calculate_basic_metrics])
  | some l =>
    by_cases hl : l.length < 2
    · rw [show calculate_basic_metrics (some l) = none from by
        show (if l.length < 2 then none else _) = none
        rw [if_pos hl]] at h
      exact absurd h (by simp)
    · have hgt : (l.map (fun s => s.eth_amount)).length > 1 := by
        rw [List.length_map]; omega
      rw [show calculate_basic_metrics (some l) = some
          ⟨(l.map (fun s => s.eth_amount)).sum,
            npMean (l.map (fun s => s.eth_amount)),
            npStd (l.map (fun s => s.eth_amount)),
            if npMean (l.map (fun s => s.eth_amount)) > 0 then
              npStd (l.map (fun s => s.eth_amount)) /
                npMean (l.map (fun s => s.eth_amount)) else 0,
            l.length, 5, (l.map (fun s => s.eth_amount)).sum / 5⟩ from by
        show (if l.length < 2 then none else _) = _
        rw [if_neg hl, if_pos hgt]] at h
      cases h
      rfl

/-- Helper: the pipeline evaluated on two 5-ETH swaps. -/
theorem calc_metrics_five_five :
    calculate_basic_metrics (some [⟨5⟩, ⟨5⟩]) =
      some (⟨10, 5, 0, 0, 2, 5, 2⟩ : Metrics ℝ) := by
  have hm : npMean [(5 : ℝ), 5] = 5 := by
    norm_num [npMean, List.sum_cons, List.sum_nil]
  have hv : npVariance [(5 : ℝ), 5] = 0 := by
    norm_num [npVariance, hm, List.sum_cons, List.sum_nil]
  have hs : npStd [(5 : ℝ), 5] = 0 := by
    rw [npStd, hv, Real.sqrt_zero]
  show (if ([⟨5⟩, ⟨5⟩] : List SwapRecord).length < 2 then none else _) = _
  norm_num [hm, hs, Metrics.mk.injEq, List.sum_cons, List.sum_nil]

/-- C9 witness: the coefficient-of-variation guard at the concrete input
`[5, 5]`, whose metrics have mean 5 and standard deviation 0. -/
theorem C9_cv_guard_witness :
    calculate_basic_metrics (some [⟨5⟩, ⟨5⟩]) =
      some (⟨10, 5, 0, 0, 2, 5, 2⟩ : Metrics ℝ) ∧
    (⟨10, 5, 0, 0, 2, 5, 2⟩ : Metrics ℝ).volume_cv =
      if (⟨10, 5, 0, 0, 2, 5, 2⟩ : Metrics ℝ).avg_volume_eth > 0 then
        (⟨10, 5, 0, 0, 2, 5, 2⟩ : Metrics ℝ).volume_std_eth /
          (⟨10, 5, 0, 0, 2, 5, 2⟩ : Metrics ℝ).avg_volume_eth
      else 0 :=
  ⟨calc_metrics_five_five, C9_cv_guard _ _ calc_metrics_five_five⟩

/-- C8: three 10-ETH swaps over the fixed 5-minute window yield mean 10,
stddev 0, CV 0, volume-per-minute 6, normalized factors 0 / 0.94 / 0.7, a
score of 45.7, and the category MEDIUM. -/
theorem C8_end_to_end :
    calculate_basic_metrics (some [⟨10⟩, ⟨10⟩, ⟨10⟩]) =
      some (⟨30, 10, 0, 0, 3, 5, 6⟩ : Metrics ℝ) ∧
    vol_norm (⟨30, 10, 0, 0, 3, 5, 6⟩ : Metrics ℝ) = 0 ∧
    liquidity_norm (⟨30, 10, 0, 0, 3, 5, 6⟩ : Metrics ℝ) = 0.94 ∧
    concentration_norm (⟨30, 10, 0, 0, 3, 5, 6⟩ : Metrics ℝ) = 0.7 ∧
    final_score (⟨30, 10, 0, 0, 3, 5, 6⟩ : Metrics ℝ) = 45.7 ∧
    ∃ r : RiskResult ℝ,
      compute_risk_score (some (⟨30, 10, 0, 0, 3, 5, 6⟩ : Metrics ℝ)) = .ok r ∧
      r.risk_score = 45.7 ∧ r.risk_level = .MEDIUM := by
  have hfs : final_score (⟨30, 10, 0, 0, 3, 5, 6⟩ : Metrics ℝ) = 45.7 := by
    norm_num [final_score, risk_score_sum, vol_norm, liquidity_norm,
      concentration_norm, risk_weights, min_def]
  refine ⟨?_, ?_, ?_, ?_, hfs, _, rfl, ?_, ?_⟩
  · have hm : npMean [(10 : ℝ), 10, 10] = 10 := by
      norm_num [npMean, List.sum_cons, List.sum_nil]
    have hv : npVariance [(10 : ℝ), 10, 10] = 0 := by
      norm_num [npVariance, hm, List.sum_cons, List.sum_nil]
    have hs : npStd [(10 : ℝ), 10, 10] = 0 := by
      rw [npStd, hv, Real.sqrt_zero]
    show (if ([⟨10⟩, ⟨10⟩, ⟨10⟩] : List SwapRecord).length < 2 then none else _) = _
    norm_num [hm, hs, Metrics.mk.injEq, List.sum_cons, List.sum_nil]
  · norm_num [vol_norm, min_def]
  · norm_num [liquidity_norm, min_def]
  · norm_num [concentration_norm, min_def]
  · show round2 (final_score (⟨30, 10, 0, 0, 3, 5, 6⟩ : Metrics ℝ)) = 45.7
    rw [hfs]
    unfold round2
    rw [show (45.7 : ℝ) * 100 = ((4570 : ℤ) : ℝ) by norm_num, round_intCast]
    norm_num
  · show risk_level (final_score (⟨30, 10, 0, 0, 3, 5, 6⟩ : Metrics ℝ)) = RiskLevel.MEDIUM
    rw [hfs]
    unfold risk_level
    rw [if_neg (by norm_num), if_pos (by norm_num)]

end RiskScorer
